import Mathlib

/-!
Shallow embedding of the card-game repository's two core components:
the `NameChange` controller (src/unnamed/part_001) together with the
shared user-name store it reads and writes, and the grid layout of
`App` (src/unnamed/part_000) with its `Cell` labels
(src/react/src/components/Cell.tsx).
-/

/-- Modelled from the spec: the store slice `src/store/user/userSlice` and
`src/store/user/selectors` are not among the provided sources; the spec
describes SharedState as "a single committed string value", read by
`selectUserName` (synchronous, no side effects) and replaced by
`setUserName(newValue)` (synchronous apply, observable by the next
`selectUserName()` call). -/
structure SharedState where
  userName : String
deriving DecidableEq, Repr

/-- Modelled from the spec: `selectUserName() -> string` reads the committed
value from SharedState. -/
def selectUserName (s : SharedState) : String :=
  s.userName

/-- Modelled from the spec: `setUserName(newValue: string)` dispatches a
commit; the committed value becomes `newValue`, observable by the next read. -/
def setUserName (_s : SharedState) (newValue : String) : SharedState :=
  { userName := newValue }

/-- The local state of the `NameChange` component: the `inputUserName`
`useState` hook holding the name of the user in the input. -/
structure NameChangeState where
  inputUserName : String
deriving DecidableEq, Repr

/-- Component activation: `useState<string>(userName)` initialises the
input's value from the user name read out of the store. -/
def mountNameChange (s : SharedState) : NameChangeState :=
  { inputUserName := selectUserName s }

/-- `canChangeName`: true iff the name in the input differs from the name
in the state (`userName !== inputUserName`). -/
def canChangeName (s : SharedState) (c : NameChangeState) : Bool :=
  selectUserName s != c.inputUserName

/-- `handleInputChange`: called on an input change event, sets the local
`inputUserName` to the event's value and touches nothing else. -/
def handleInputChange (_c : NameChangeState) (value : String) : NameChangeState :=
  { inputUserName := value }

/-- `handleNameChange`: called when "Submit" is pressed; dispatches
`setUserName(inputUserName)` to the store. -/
def handleNameChange (s : SharedState) (c : NameChangeState) : SharedState :=
  setUserName s c.inputUserName

/-- The combined state of the running system: the shared store plus the
controller's local state. -/
structure SystemState where
  shared : SharedState
  ctrl : NameChangeState
deriving DecidableEq, Repr

/-- The two user events the `NameChange` component handles: an input
change (keystroke) and a click of the "Submit" button. -/
inductive UiEvent where
  | edit : String → UiEvent
  | commit : UiEvent

/-- One event-loop turn: an edit runs `handleInputChange` (local state
only), a commit runs `handleNameChange` (store only). -/
def step (st : SystemState) (e : UiEvent) : SystemState :=
  match e with
  | UiEvent.edit v => { st with ctrl := handleInputChange st.ctrl v }
  | UiEvent.commit => { st with shared := handleNameChange st.shared st.ctrl }

/-- The "Submit" button is rendered with `disabled={!canChangeName}`: a
commit is reachable exactly when `canChangeName` holds. -/
def commitEnabled (st : SystemState) : Bool :=
  canChangeName st.shared st.ctrl

/-- A sequence of input-change events applied in order. -/
def applyEdits (vs : List String) (st : SystemState) : SystemState :=
  vs.foldl (fun acc v => step acc (UiEvent.edit v)) st

theorem applyEdits_shared (vs : List String) (st : SystemState) :
    (applyEdits vs st).shared = st.shared := by
  induction vs generalizing st with
  | nil => rfl
  | cons v vs ih =>
    simpa [applyEdits, step] using ih { st with ctrl := handleInputChange st.ctrl v }

/-- C2: `canChangeName` is true iff the committed value and the draft
differ; it is a pure function of the two values. -/
theorem canChangeName_iff (s : SharedState) (c : NameChangeState) :
    canChangeName s c = true ↔ selectUserName s ≠ c.inputUserName := by
  simp [canChangeName]

/-- C1: when the committed value and the draft differ, a commit sets the
shared committed value to the draft, the very next `selectUserName` read
returns it, and `canChangeName` is then false, so the disabled "Submit"
button makes a second commit unreachable. -/
theorem commit_updates_store_and_disables (s : SharedState) (c : NameChangeState)
    (_h : selectUserName s ≠ c.inputUserName) :
    selectUserName (step ⟨s, c⟩ UiEvent.commit).shared = c.inputUserName ∧
    commitEnabled (step ⟨s, c⟩ UiEvent.commit) = false := by
  refine ⟨rfl, ?_⟩
  simp [commitEnabled, step, canChangeName, handleNameChange, setUserName, selectUserName]

theorem commit_updates_store_and_disables_witness :
    selectUserName (step ⟨⟨"Alice"⟩, ⟨"Bob"⟩⟩ UiEvent.commit).shared = "Bob" ∧
    commitEnabled (step ⟨⟨"Alice"⟩, ⟨"Bob"⟩⟩ UiEvent.commit) = false :=
  commit_updates_store_and_disables ⟨"Alice"⟩ ⟨"Bob"⟩ (by decide)

/-- C3: input-change events never write the store: after any sequence of
edits the shared state is unchanged and `selectUserName` still returns the
old committed value (committed "Alice" stays "Alice" after Edit "Bob",
while the draft becomes "Bob"); the only store mutation is a commit, which
is exactly one `setUserName` application. -/
theorem edits_never_write_store :
    (∀ (vs : List String) (st : SystemState),
      (applyEdits vs st).shared = st.shared ∧
      selectUserName (applyEdits vs st).shared = selectUserName st.shared) ∧
    (∀ (st : SystemState),
      (step st UiEvent.commit).shared = setUserName st.shared st.ctrl.inputUserName ∧
      (step st UiEvent.commit).ctrl = st.ctrl) ∧
    selectUserName (applyEdits ["Bob"] ⟨⟨"Alice"⟩, mountNameChange ⟨"Alice"⟩⟩).shared = "Alice" ∧
    (applyEdits ["Bob"] ⟨⟨"Alice"⟩, mountNameChange ⟨"Alice"⟩⟩).ctrl.inputUserName = "Bob" := by
  refine ⟨fun vs st => ⟨applyEdits_shared vs st, ?_⟩, fun st => ⟨rfl, rfl⟩, ?_, rfl⟩
  · rw [applyEdits_shared]
  · rw [applyEdits_shared ["Bob"]]
    rfl

/-- C7: Activate, then Edit X, then Commit, then Activate on a fresh
controller instance yields draft = committed = X. -/
theorem activation_roundtrip (s : SharedState) (X : String) :
    (mountNameChange (handleNameChange s (handleInputChange (mountNameChange s) X))).inputUserName = X ∧
    selectUserName (handleNameChange s (handleInputChange (mountNameChange s) X)) = X :=
  ⟨rfl, rfl⟩

/-- C9: a commit never modifies the local draft; afterwards the freshly
read committed value equals the unchanged draft, which is why
`canChangeName` is then false. -/
theorem commit_preserves_draft (s : SharedState) (c : NameChangeState) :
    (step ⟨s, c⟩ UiEvent.commit).ctrl = c ∧
    selectUserName (step ⟨s, c⟩ UiEvent.commit).shared
      = (step ⟨s, c⟩ UiEvent.commit).ctrl.inputUserName ∧
    commitEnabled (step ⟨s, c⟩ UiEvent.commit) = false := by
  refine ⟨rfl, rfl, ?_⟩
  simp [commitEnabled, step, canChangeName, handleNameChange, setUserName, selectUserName]

/-- C10: `handleNameChange` always establishes committed = draft,
independently of the enablement gate: invoked while the draft already
equals the committed value it leaves the shared state unchanged, and
invoking it twice in a row equals invoking it once. -/
theorem commit_unconditional (s : SharedState) (c : NameChangeState) :
    (selectUserName s = c.inputUserName → handleNameChange s c = s) ∧
    handleNameChange (handleNameChange s c) c = handleNameChange s c := by
  refine ⟨fun h => ?_, rfl⟩
  cases s
  simp [handleNameChange, setUserName]
  exact h.symm

theorem commit_unconditional_witness :
    handleNameChange ⟨"Ann"⟩ ⟨"Ann"⟩ = (⟨"Ann"⟩ : SharedState) ∧
    handleNameChange (handleNameChange ⟨"Ann"⟩ ⟨"Ann"⟩) ⟨"Ann"⟩
      = handleNameChange ⟨"Ann"⟩ ⟨"Ann"⟩ :=
  ⟨(commit_unconditional ⟨"Ann"⟩ ⟨"Ann"⟩).1 rfl, (commit_unconditional ⟨"Ann"⟩ ⟨"Ann"⟩).2⟩

/-- A grid coordinate as in src/unnamed/part_000: an ordered pair of
non-negative integers, destructured there as `[x, y]`. -/
abbrev Coordinate := Nat × Nat

/-- The fixed `grid` constant of src/unnamed/part_000. -/
def grid : List (List Coordinate) := [
  [(0, 2), (0, 3), (0, 4)],
  [(1, 0), (1, 1), (1, 2), (1, 3), (1, 4), (1, 5), (1, 6)],
  [(2, 0), (2, 1), (2, 2), (2, 3), (2, 4), (2, 5), (2, 6)],
  [(3, 0), (3, 1), (3, 2), (3, 3), (3, 4), (3, 5), (3, 6)],
  [(4, 0), (4, 1), (4, 2), (4, 3), (4, 4), (4, 5), (4, 6)],
  [(5, 2), (5, 3), (5, 4)]]

/-- The text rendered inside the `Cell` component
(src/react/src/components/Cell.tsx) for coordinates x, y. -/
def cellLabel (x y : Nat) : String :=
  "(" ++ toString x ++ ", " ++ toString y ++ ")"

/-- The key attached to the cell wrapper for a coordinate in
src/unnamed/part_000. -/
def cellKey (p : Coordinate) : String :=
  toString p.1 ++ "-" ++ toString p.2

/-- The inline gridArea value of the cell wrapper for a coordinate:
start row line x+1, start column line y+1, and the same two lines again
as the end lines. -/
def gridAreaText (p : Coordinate) : String :=
  toString (p.1 + 1) ++ " / " ++ toString (p.2 + 1) ++ " / " ++
    toString (p.1 + 1) ++ " / " ++ toString (p.2 + 1)

/-- One rendered cell wrapper: its key, the numeric grid lines it starts
at, the gridArea text carrying them, and the `Cell` label inside. -/
structure CellNode where
  key : String
  rowLine : Nat
  colLine : Nat
  area : String
  label : String
deriving DecidableEq, Repr

/-- The node src/unnamed/part_000 renders for one coordinate. -/
def renderNode (p : Coordinate) : CellNode :=
  { key := cellKey p
    rowLine := p.1 + 1
    colLine := p.2 + 1
    area := gridAreaText p
    label := cellLabel p.1 p.2 }

/-- The grid portion of `App`: a map over the rows, a map over each row's
coordinates, flattened into the sequence of rendered cell nodes. -/
def renderGrid (g : List (List Coordinate)) : List CellNode :=
  (g.map (fun row => row.map renderNode)).flatten

/-- The production coordinate set, in render order. -/
def coords : List Coordinate := grid.flatten

/-- The column track count of the rendering surface, from the
gridTemplateColumns value `repeat(7, ...)` of src/unnamed/part_000. -/
def templateColumnCount : Nat := 7

/-- The column count the spec derives: 1 + the maximum column index
observed across all coordinates. -/
def derivedColumnCount : Nat :=
  1 + (coords.map Prod.snd).foldl max 0

/-- C4: every production coordinate (r, c) is placed at grid line
position (r+1, c+1), and the derived column count 1 + max column index
equals 7, the number of tracks the surface is partitioned into. -/
theorem layout_placement :
    (∀ p ∈ coords,
      (renderNode p).rowLine = p.1 + 1 ∧ (renderNode p).colLine = p.2 + 1 ∧
      (renderNode p).area = gridAreaText p) ∧
    derivedColumnCount = 7 ∧ templateColumnCount = derivedColumnCount := by
  exact ⟨fun p _ => ⟨rfl, rfl, rfl⟩, by decide, by decide⟩

theorem layout_placement_witness :
    (renderNode (2, 5)).rowLine = 2 + 1 ∧ (renderNode (2, 5)).colLine = 5 + 1 ∧
    (renderNode (2, 5)).area = gridAreaText (2, 5) :=
  layout_placement.1 (2, 5) (by decide)

/-- C5: the content of the cell for coordinates x, y is exactly the text
"(x, y)" with parentheses, a comma and a single space, and decimal
coordinates; at (2, 5) it is the literal text "(2, 5)". -/
theorem label_exact :
    (∀ x y : Nat, cellLabel x y = "(" ++ toString x ++ ", " ++ toString y ++ ")") ∧
    (∀ p : Coordinate, (renderNode p).label = cellLabel p.1 p.2) ∧
    (renderNode (2, 5)).label = "(2, 5)" :=
  ⟨fun _ _ => rfl, fun _ => rfl, by decide⟩

/-- C6: every rendered cell for (x, y) carries the key "x-y", and over
the production coordinate set these keys are pairwise distinct. -/
theorem keys_distinct :
    (∀ p : Coordinate, (renderNode p).key = toString p.1 ++ "-" ++ toString p.2) ∧
    ((renderGrid grid).map CellNode.key).Nodup :=
  ⟨fun _ => rfl, by decide⟩

/-- C8 counterexample: no rejection of duplicate coordinates exists in
any build: the layout is a total map, so a GridSpec repeating the
coordinate (1, 1) is laid out rather than rejected, yielding two nodes
that even share the key "1-1". -/
theorem no_duplicate_check_counterexample :
    (renderGrid [[(1, 1), (1, 1)]]).length = 2 ∧
    ¬ ((renderGrid [[(1, 1), (1, 1)]]).map CellNode.key).Nodup :=
  ⟨rfl, by decide⟩

/-- C8 amended: the code performs no duplicate-coordinate check in any
build: layout renders one node per coordinate of any GridSpec, duplicates
included; the production grid's coordinates are pairwise distinct, so the
invariant such a check would enforce does hold for the static data. -/
theorem no_duplicate_check_amended :
    (∀ g : List (List Coordinate), (renderGrid g).length = g.flatten.length) ∧
    coords.Nodup := by
  refine ⟨fun g => ?_, by decide⟩
  simp [renderGrid, Function.comp_def]
